import Mathlib

/-!
Shallow embedding of the lollipop sticky-keys daemon (src/main.rs) and
verification of the frozen claims about it.

Modelling conventions:
* `SystemTime` timestamps are natural numbers (milliseconds); `Duration`
  values are natural numbers.  `SystemTime::duration_since` is `durationSince`,
  returning `none` exactly when time went backwards (the `Err` case).
* `InputEvent` key events are pairs `(code, value)`; codes are `Nat`
  (the kernel key-code space), values are `Int` (0 release, 1 press,
  2 autorepeat).
* The `BTreeMap<KeyCode, KeyState>` is an association list in its iteration
  order (a `BTreeMap` iterates in sorted key order and holds each key once);
  `updateKey` rewrites the unique entry for a key, exactly what `get_mut`
  plus in-place assignment does.
* Rust's in-place mutation becomes explicit state passing: each method
  returns the new `InternalState` together with the events it produced.
-/

namespace Lollipop

/-- `KeyCode::KEY_ESC` from the kernel code space. -/
def KEY_ESC : Nat := 1

/-- `SystemTime::duration_since`: `some (t - tp)` when `tp ≤ t`, `none`
(the `Err` case) when time went backwards. -/
def durationSince (t tp : Nat) : Option Nat :=
  if tp ≤ t then some (t - tp) else none

/-- The three-state per-modifier automaton `KeyState` from src/main.rs. -/
inductive KeyState where
  | latched (last_press : Nat)
  | locked
  | none
deriving DecidableEq, Repr

namespace KeyState

/-- `KeyState::transition` from src/main.rs: invoked with the press time and
the configured timeout. -/
def transition (s : KeyState) (time : Nat) (timeout : Nat) : KeyState :=
  match s with
  | .latched last_press =>
      match durationSince time last_press with
      | some elapsed => if elapsed < timeout then .locked else .none
      | Option.none => .none
  | .locked => .none
  | .none => .latched time

/-- `KeyState::pressed_state` from src/main.rs. -/
def pressed_state (s : KeyState) : Int :=
  match s with
  | .locked | .latched _ => 1
  | .none => 0

/-- `matches!(s, KeyState::Latched(_))`. -/
def isLatched : KeyState → Bool
  | .latched _ => true
  | _ => false

/-- `KeyState::None.eq(s)` as a Boolean. -/
def isNone : KeyState → Bool
  | .none => true
  | _ => false

end KeyState

/-- A key `InputEvent`: `(code, value)` as produced by `KeyEvent::new`. -/
abbrev IEvent := Nat × Int

/-- The `Touchpad` struct from src/main.rs. `position` is the `[i32; 2]`
array, `buffer` the staged release events, `last_release` the optional
release timestamp, `fuzz` the motion threshold. -/
structure Touchpad where
  dragging : Bool
  position : Int × Int
  buffer : List IEvent
  last_release : Option Nat
  fuzz : Nat
deriving DecidableEq, Repr

/-- The `InternalState` struct from src/main.rs.  The `BTreeMap` of
modifiers is an association list in iteration (sorted-key) order. -/
structure InternalState where
  modifiers : List (Nat × KeyState)
  timeout : Nat
  clear_all_with_escape : Bool
  touchpad : Touchpad
deriving DecidableEq, Repr

/-- `TOUCH_RELEASED` constant. -/
def TOUCH_RELEASED : Int := 0

/-- `TOUCH_HELD` constant. -/
def TOUCH_HELD : Int := 1

/-- `COORDINATE_EMPTY` sentinel. -/
def COORDINATE_EMPTY : Int := -1

/-- `POSITION_EMPTY` sentinel pair. -/
def POSITION_EMPTY : Int × Int := (-1, -1)

/-- The loop body of `InternalState::release_latched`: walks the entries in
iteration order, rewriting every `Latched` entry to `None` and appending a
release event for it. Returns the rewritten entries and the events. -/
def releaseLatchedList : List (Nat × KeyState) → List (Nat × KeyState) × List IEvent
  | [] => ([], [])
  | (k, KeyState.latched _) :: rest =>
      let r := releaseLatchedList rest
      ((k, KeyState.none) :: r.1, (k, (0 : Int)) :: r.2)
  | p :: rest =>
      let r := releaseLatchedList rest
      (p :: r.1, r.2)

/-- The loop inside the escape branch of `InternalState::transition`: every
entry not already `None` is set to `None` and a release event appended. -/
def clearAllList : List (Nat × KeyState) → List (Nat × KeyState) × List IEvent
  | [] => ([], [])
  | (k, KeyState.none) :: rest =>
      let r := clearAllList rest
      ((k, KeyState.none) :: r.1, r.2)
  | (k, _) :: rest =>
      let r := clearAllList rest
      ((k, KeyState.none) :: r.1, (k, (0 : Int)) :: r.2)

/-- `BTreeMap::get_mut` plus in-place assignment: rewrite the (unique)
entry whose key is `key` to carry `v`. -/
def updateKey : List (Nat × KeyState) → Nat → KeyState → List (Nat × KeyState)
  | [], _, _ => []
  | (k, w) :: rest, key, v =>
      if k = key then (k, v) :: rest else (k, w) :: updateKey rest key v

namespace InternalState

/-- `InternalState::release_latched` from src/main.rs, returning the new
state and the emitted synthetic release events. -/
def release_latched (s : InternalState) : InternalState × List IEvent :=
  let r := releaseLatchedList s.modifiers
  ({ s with modifiers := r.1 }, r.2)

/-- `InternalState::respond_touch` from src/main.rs.  `touch` is the
button press value; `now` stands for `SystemTime::now()`. -/
def respond_touch (s : InternalState) (touch : Int) (now : Nat) : InternalState :=
  let s :=
    if touch = TOUCH_HELD then
      { s with touchpad := { s.touchpad with dragging := false, last_release := Option.none } }
    else s
  if ¬s.touchpad.dragging ∧ touch = TOUCH_RELEASED then
    let r := releaseLatchedList s.modifiers
    { s with
        modifiers := r.1,
        touchpad := { s.touchpad with last_release := some now, buffer := r.2 } }
  else s

/-- `InternalState::respond_motion` from src/main.rs.  The axis index is
0 for `ABS_X` and 1 for `ABS_Y` (the event codes passed by the caller). -/
def respond_motion (s : InternalState) (axis : Fin 2) (coordinate : Int) : InternalState :=
  if s.touchpad.dragging then s
  else
    let cur := if axis = 0 then s.touchpad.position.1 else s.touchpad.position.2
    if cur = COORDINATE_EMPTY then
      let pos :=
        if axis = 0 then (coordinate, s.touchpad.position.2)
        else (s.touchpad.position.1, coordinate)
      { s with touchpad := { s.touchpad with position := pos } }
    else if (cur - coordinate).natAbs > s.touchpad.fuzz then
      { s with touchpad := { s.touchpad with dragging := true, position := POSITION_EMPTY } }
    else s

/-- `InternalState::transition` from src/main.rs: the key-event handler.
Returns the new state and the batch of output events. -/
def transition (s : InternalState) (key : Nat) (pressed : Int) (timestamp : Nat) :
    InternalState × List IEvent :=
  if s.clear_all_with_escape ∧ key = KEY_ESC then
    let r := clearAllList s.modifiers
    ({ s with modifiers := r.1 }, r.2)
  else
    match s.modifiers.lookup key with
    | some key_state =>
        let ks :=
          if pressed = 1 then key_state.transition timestamp s.timeout else key_state
        ({ s with modifiers := updateKey s.modifiers key ks }, [(key, ks.pressed_state)])
    | Option.none =>
        let r := releaseLatchedList s.modifiers
        ({ s with modifiers := r.1 }, (key, pressed) :: r.2)

/-- `InternalState::led_state` from src/main.rs. -/
def led_state (s : InternalState) : Int :=
  if s.modifiers.any (fun v => v.2.pressed_state > 0) then (2 ^ 31 - 1 : Int) else 0

end InternalState

/-- The deferred-release check at the top of the main loop: when
`last_release` is set and its elapsed time strictly exceeds the touchpad
timeout, the staged buffer is emitted and cleared (and nothing else
changes). Returns the new state and the emitted events. -/
def deferredStep (s : InternalState) (now : Nat) (touchpad_timeout : Nat) :
    InternalState × List IEvent :=
  match s.touchpad.last_release with
  | some t =>
      match durationSince now t with
      | some elapsed =>
          if elapsed > touchpad_timeout then
            ({ s with touchpad := { s.touchpad with buffer := [] } }, s.touchpad.buffer)
          else (s, [])
      | Option.none => (s, [])
  | Option.none => (s, [])

/-- One stimulus of the event loop: a keyboard key event, a touchpad
button event (`BTN_LEFT`/`BTN_RIGHT`/`BTN_TOUCH`), a touchpad absolute-axis
motion event, or the deferred-release check running at time `now`. -/
inductive Ev where
  | key (code : Nat) (value : Int) (ts : Nat)
  | touch (value : Int) (now : Nat)
  | motion (axis : Fin 2) (coord : Int)
  | deferred (now : Nat)
deriving DecidableEq

/-- The state change performed by the event loop for one stimulus
(outputs discarded); `tt` is the configured touchpad timeout. -/
def step (tt : Nat) (s : InternalState) (e : Ev) : InternalState :=
  match e with
  | .key c v ts => (s.transition c v ts).1
  | .touch v now => s.respond_touch v now
  | .motion a c => s.respond_motion a c
  | .deferred now => (deferredStep s now tt).1

/-- Run the event loop over a list of stimuli. -/
def runTrace (tt : Nat) (s : InternalState) (es : List Ev) : InternalState :=
  es.foldl (step tt) s

/-- Feed a list of keyboard key events `(code, value, timestamp)` through
`InternalState.transition`, concatenating the output batches. -/
def runKeys (s : InternalState) : List (Nat × Int × Nat) → InternalState × List IEvent
  | [] => (s, [])
  | (k, v, t) :: rest =>
      let r := s.transition k v t
      let r2 := runKeys r.1 rest
      (r2.1, r.2 ++ r2.2)

/-- The `Error` enum from src/main.rs (payloads reduced to the strings the
variants carry; the `io::Error` causes are dropped). -/
inductive Error where
  | OpenDeviceHandle (path : String)
  | NoKeyboardDevice
  | InvalidModifier (s : String)
  | InvalidTimeout (s : String)
  | InvalidFuzz (s : String)
  | InvalidConfig (s : String)
  | FailedReadingConfig (path : String)
deriving DecidableEq, Repr

/-- The `#[error(...)]` display string of each `Error` variant (static
part, payloads elided). -/
def Error.message : Error → String
  | .OpenDeviceHandle _ => "failed to open a handle to keyboard device"
  | .NoKeyboardDevice => "no keyboard device available to augment input keypresses of"
  | .InvalidModifier _ => "invalid modifier supplied in config"
  | .InvalidTimeout _ => "invalid locking timeout supplied"
  | .InvalidFuzz _ => "invalid fuzz threshold supplied"
  | .InvalidConfig _ => "invalid line in encoutered config"
  | .FailedReadingConfig _ => "failed to read config file"

/-- Does the character list starting here begin with `needle`? -/
def charsStartWith : List Char → List Char → Bool
  | [], _ => true
  | _ :: _, [] => false
  | c :: cs, d :: ds => c == d && charsStartWith cs ds

/-- `str::contains` on character lists: does `needle` occur contiguously
inside the haystack? -/
def charsContain (needle : List Char) : List Char → Bool
  | [] => charsStartWith needle []
  | hay@(_ :: rest) => charsStartWith needle hay || charsContain needle rest

/-- `str::contains` for strings. -/
def strContains (hay needle : String) : Bool :=
  charsContain needle.toList hay.toList

/-- ASCII case folding of one character (the fragment of
`str::to_lowercase` exercised by device names). -/
def lowerChar (c : Char) : Char :=
  if 65 ≤ c.toNat ∧ c.toNat ≤ 90 then Char.ofNat (c.toNat + 32) else c

/-- `str::to_lowercase` (ASCII fragment). -/
def to_lowercase (s : String) : String :=
  ⟨s.data.map lowerChar⟩

/-- `pick_touchpad` from src/main.rs over the enumerated device names:
the first device whose lowercased name contains "touchpad", otherwise
`Error::NoKeyboardDevice`. -/
def pick_touchpad (devices : List String) : Except Error String :=
  match devices.find? (fun name => strContains (to_lowercase name) "touchpad") with
  | some d => Except.ok d
  | Option.none => Except.error Error.NoKeyboardDevice

/-- The touchpad-opening step of `main`: when the config enables the
touchpad, `pick_touchpad()?` propagates its error out of `main`. -/
def setupTouchpad (touchpadEnabled : Bool) (devices : List String) :
    Except Error (Option String) :=
  if touchpadEnabled then (pick_touchpad devices).map some else Except.ok Option.none

/-- `modifier_name_to_key_code` from src/main.rs (key codes as kernel
numeric values). -/
def modifier_name_to_key_code (s : String) : Option Nat :=
  match s with
  | "leftshift" => some 42
  | "rightshift" => some 54
  | "leftctrl" => some 29
  | "rightctrl" => some 97
  | "compose" => some 127
  | "leftmeta" => some 125
  | "fn" => some 464
  | "capslock" => some 58
  | "rightmeta" => some 126
  | _ => Option.none

/-- The default modifier list from `Config::default()`:
LeftShift, LeftMeta, LeftCtrl, LeftAlt. -/
def defaultModifiers : List Nat := [42, 125, 29, 56]

end Lollipop

namespace Lollipop

/-! ## Helper lemmas about the table operations -/

lemma transition_latched_eq (tp t timeout : Nat) :
    KeyState.transition (KeyState.latched tp) t timeout
      = if tp ≤ t ∧ t - tp < timeout then KeyState.locked else KeyState.none := by
  unfold KeyState.transition durationSince
  by_cases h : tp ≤ t
  · by_cases h2 : t - tp < timeout <;> simp [h, h2]
  · simp [h]

lemma releaseLatchedList_eq (l : List (Nat × KeyState)) :
    releaseLatchedList l
      = (l.map (fun p => if p.2.isLatched then (p.1, KeyState.none) else p),
         (l.filter (fun p => p.2.isLatched)).map (fun p => (p.1, (0 : Int)))) := by
  induction l with
  | nil => rfl
  | cons p rest ih =>
    obtain ⟨k, ks⟩ := p
    cases ks <;> simp [releaseLatchedList, ih, KeyState.isLatched]

lemma clearAllList_eq (l : List (Nat × KeyState)) :
    clearAllList l
      = (l.map (fun p => (p.1, KeyState.none)),
         (l.filter (fun p => !p.2.isNone)).map (fun p => (p.1, (0 : Int)))) := by
  induction l with
  | nil => rfl
  | cons p rest ih =>
    obtain ⟨k, ks⟩ := p
    cases ks <;> simp [clearAllList, ih, KeyState.isNone]

lemma lookup_updateKey (l : List (Nat × KeyState)) (key : Nat) (v w : KeyState)
    (h : List.lookup key l = some v) :
    List.lookup key (updateKey l key w) = some w := by
  induction l with
  | nil => simp [List.lookup] at h
  | cons p rest ih =>
    obtain ⟨k, x⟩ := p
    by_cases hk : k = key
    · subst hk
      simp [updateKey, List.lookup]
    · have hne : (key == k) = false := by
        simp [beq_iff_eq]
        exact fun hh => hk hh.symm
      simp [List.lookup, hne] at h
      simp [updateKey, hk, List.lookup, hne]
      exact ih h

lemma updateKey_same (l : List (Nat × KeyState)) (key : Nat) (v : KeyState)
    (h : List.lookup key l = some v) :
    updateKey l key v = l := by
  induction l with
  | nil => rfl
  | cons p rest ih =>
    obtain ⟨k, x⟩ := p
    by_cases hk : k = key
    · subst hk
      simp [List.lookup] at h
      simp [updateKey, h]
    · have hne : (key == k) = false := by
        simp [beq_iff_eq]
        exact fun hh => hk hh.symm
      simp [List.lookup, hne] at h
      simp [updateKey, hk]
      exact ih h


/-! ## C1 -/

/-- **C1.** For every press of a configured modifier at timestamp `t` with
the configured timeout: from `None` the entry becomes `Latched t`; from
`Latched tp` it becomes `Locked` exactly when the press is not earlier than
`tp` and `t - tp` is strictly below the timeout, and becomes `None` exactly
when `t - tp` reaches or exceeds the timeout or time went backwards; a
press at exactly `tp + timeout` yields `None`; from `Locked` it becomes
`None`; and the tap that exits `Latched` or `Locked` never yields a
`Latched` state. -/
theorem C1_keystate_transition (t tp timeout : Nat) :
    KeyState.transition KeyState.none t timeout = KeyState.latched t
    ∧ (KeyState.transition (KeyState.latched tp) t timeout = KeyState.locked
        ↔ tp ≤ t ∧ t - tp < timeout)
    ∧ (KeyState.transition (KeyState.latched tp) t timeout = KeyState.none
        ↔ t < tp ∨ timeout ≤ t - tp)
    ∧ KeyState.transition (KeyState.latched tp) (tp + timeout) timeout = KeyState.none
    ∧ KeyState.transition KeyState.locked t timeout = KeyState.none
    ∧ (∀ u, KeyState.transition (KeyState.latched tp) t timeout ≠ KeyState.latched u)
    ∧ (∀ u, KeyState.transition KeyState.locked t timeout ≠ KeyState.latched u) := by
  refine ⟨rfl, ?_, ?_, ?_, rfl, ?_, ?_⟩
  · rw [transition_latched_eq]
    by_cases h : tp ≤ t ∧ t - tp < timeout
    · simp [h]
    · simp [h]
  · rw [transition_latched_eq]
    by_cases h : tp ≤ t ∧ t - tp < timeout
    · simp [h]
    · simp [h]
      omega
  · rw [transition_latched_eq]
    have h2 : ¬(tp ≤ tp + timeout ∧ tp + timeout - tp < timeout) := by omega
    simp [h2]
  · intro u
    rw [transition_latched_eq]
    split <;> simp
  · intro u
    simp [KeyState.transition]

/-! ## C2 -/

/-- **C2.** For every key event on a configured modifier key (any value 0,
1 or 2), `InternalState.transition` returns exactly one event `(key, s)`
where `s` is the pressed-state of the entry after the call: 1 iff the
entry is `Latched` or `Locked`, 0 iff it is `None`; and a release (0) or
autorepeat (2) leaves the entry unchanged.  The hypothesis `key ≠ KEY_ESC`
holds of every configurable modifier (see
`modifier_name_to_key_code_ne_esc` and `esc_not_default_modifier`). -/
theorem C2_modifier_event (s : InternalState) (key : Nat) (pressed : Int) (t : Nat)
    (ks : KeyState) (hks : s.modifiers.lookup key = some ks) (hesc : key ≠ KEY_ESC) :
    ∃ ks', (s.transition key pressed t).1.modifiers.lookup key = some ks'
      ∧ (s.transition key pressed t).2 = [(key, ks'.pressed_state)]
      ∧ (ks'.pressed_state = 1 ↔ ks' = KeyState.locked ∨ ∃ u, ks' = KeyState.latched u)
      ∧ (ks'.pressed_state = 0 ↔ ks' = KeyState.none)
      ∧ (pressed ≠ 1 → ks' = ks) := by
  have hcond : ¬(s.clear_all_with_escape ∧ key = KEY_ESC) := fun h => hesc h.2
  refine ⟨if pressed = 1 then ks.transition t s.timeout else ks, ?_, ?_, ?_, ?_, ?_⟩
  · simp only [InternalState.transition, if_neg hcond, hks]
    exact lookup_updateKey _ _ _ _ hks
  · simp only [InternalState.transition, if_neg hcond, hks]
  · cases h : (if pressed = 1 then ks.transition t s.timeout else ks) <;>
      simp [KeyState.pressed_state]
  · cases h : (if pressed = 1 then ks.transition t s.timeout else ks) <;>
      simp [KeyState.pressed_state]
  · intro hp
    simp [hp]

/-- Witness for C2 at a concrete state: LSHIFT (42) configured and `None`,
a press at time 0 latches it and emits `(42, 1)`. -/
theorem C2_modifier_event_witness :
    ∃ ks', (InternalState.transition
        { modifiers := [(42, KeyState.none)], timeout := 500,
          clear_all_with_escape := true,
          touchpad := { dragging := false, position := (-1, -1), buffer := [],
                        last_release := Option.none, fuzz := 300 } }
        42 1 0).1.modifiers.lookup 42 = some ks'
      ∧ (InternalState.transition
        { modifiers := [(42, KeyState.none)], timeout := 500,
          clear_all_with_escape := true,
          touchpad := { dragging := false, position := (-1, -1), buffer := [],
                        last_release := Option.none, fuzz := 300 } }
        42 1 0).2 = [(42, ks'.pressed_state)]
      ∧ (ks'.pressed_state = 1 ↔ ks' = KeyState.locked ∨ ∃ u, ks' = KeyState.latched u)
      ∧ (ks'.pressed_state = 0 ↔ ks' = KeyState.none)
      ∧ ((1 : Int) ≠ 1 → ks' = KeyState.none) :=
  C2_modifier_event _ 42 1 0 KeyState.none (by decide) (by decide)

/-! ## C3 -/

lemma releaseLatchedList_no_latched (l : List (Nat × KeyState)) :
    ∀ p ∈ (releaseLatchedList l).1, p.2.isLatched = false := by
  rw [releaseLatchedList_eq]
  intro p hp
  obtain ⟨q, hq, rfl⟩ := List.mem_map.mp hp
  obtain ⟨k, ks⟩ := q
  cases ks <;> simp [KeyState.isLatched]

/-- **C3.** For every non-modifier, non-escape key event, the output batch
begins with the event passed through unchanged, followed by one synthetic
release `(k, 0)` for each entry that was `Latched`, in the table's
iteration order; afterwards no entry is `Latched`, each formerly `Latched`
entry is `None`, and `Locked`/`None` entries are unchanged. -/
theorem C3_nonmodifier_passthrough (s : InternalState) (key : Nat) (pressed : Int) (t : Nat)
    (hmod : s.modifiers.lookup key = Option.none) (hesc : key ≠ KEY_ESC) :
    (s.transition key pressed t).2
        = (key, pressed)
            :: (s.modifiers.filter (fun p => p.2.isLatched)).map (fun p => (p.1, (0 : Int)))
    ∧ (s.transition key pressed t).1.modifiers
        = s.modifiers.map (fun p => if p.2.isLatched then (p.1, KeyState.none) else p)
    ∧ (∀ p ∈ (s.transition key pressed t).1.modifiers, p.2.isLatched = false) := by
  have hcond : ¬(s.clear_all_with_escape ∧ key = KEY_ESC) := fun h => hesc h.2
  refine ⟨?_, ?_, ?_⟩
  · simp only [InternalState.transition, if_neg hcond, hmod, releaseLatchedList_eq]
  · simp only [InternalState.transition, if_neg hcond, hmod, releaseLatchedList_eq]
  · simp only [InternalState.transition, if_neg hcond, hmod]
    exact releaseLatchedList_no_latched s.modifiers

/-- Witness for C3: with LSHIFT (42) latched and LCTRL (29) locked, the
non-modifier press of A (30) passes through first and releases exactly the
latched LSHIFT. -/
theorem C3_nonmodifier_passthrough_witness :
    (InternalState.transition
        { modifiers := [(29, KeyState.locked), (42, KeyState.latched 0)], timeout := 500,
          clear_all_with_escape := true,
          touchpad := { dragging := false, position := (-1, -1), buffer := [],
                        last_release := Option.none, fuzz := 300 } }
        30 1 50).2
      = (30, 1)
          :: (([(29, KeyState.locked), (42, KeyState.latched 0)] : List (Nat × KeyState)).filter
                (fun p => p.2.isLatched)).map (fun p => (p.1, (0 : Int)))
    ∧ (InternalState.transition
        { modifiers := [(29, KeyState.locked), (42, KeyState.latched 0)], timeout := 500,
          clear_all_with_escape := true,
          touchpad := { dragging := false, position := (-1, -1), buffer := [],
                        last_release := Option.none, fuzz := 300 } }
        30 1 50).1.modifiers
      = ([(29, KeyState.locked), (42, KeyState.latched 0)] : List (Nat × KeyState)).map
          (fun p => if p.2.isLatched then (p.1, KeyState.none) else p)
    ∧ (∀ p ∈ (InternalState.transition
        { modifiers := [(29, KeyState.locked), (42, KeyState.latched 0)], timeout := 500,
          clear_all_with_escape := true,
          touchpad := { dragging := false, position := (-1, -1), buffer := [],
                        last_release := Option.none, fuzz := 300 } }
        30 1 50).1.modifiers, p.2.isLatched = false) :=
  C3_nonmodifier_passthrough _ 30 1 50 (by decide) (by decide)

/-! ## C4 -/

lemma transition_esc (s : InternalState) (pressed : Int) (t : Nat)
    (h : s.clear_all_with_escape = true) :
    s.transition KEY_ESC pressed t
      = ({ s with modifiers := s.modifiers.map (fun p => (p.1, KeyState.none)) },
         (s.modifiers.filter (fun p => !p.2.isNone)).map (fun p => (p.1, (0 : Int)))) := by
  unfold InternalState.transition
  rw [if_pos (⟨h, rfl⟩ : s.clear_all_with_escape = true ∧ KEY_ESC = KEY_ESC)]
  rw [clearAllList_eq]

/-- **C4 counterexample.** With `clear_all_with_escape` enabled and LCTRL
(29) `Locked`, an ESC event with `pressed = 0` is *not* treated as an
ordinary pass-through event: the output is the release of LCTRL (not the
ESC event), and the `Locked` entry is cleared — the escape branch does not
check the press value. -/
theorem C4_clear_branch_counterexample :
    (InternalState.transition
        { modifiers := [(29, KeyState.locked)], timeout := 500,
          clear_all_with_escape := true,
          touchpad := { dragging := false, position := (-1, -1), buffer := [],
                        last_release := Option.none, fuzz := 300 } }
        KEY_ESC 0 50).2 = [(29, 0)]
    ∧ (InternalState.transition
        { modifiers := [(29, KeyState.locked)], timeout := 500,
          clear_all_with_escape := true,
          touchpad := { dragging := false, position := (-1, -1), buffer := [],
                        last_release := Option.none, fuzz := 300 } }
        KEY_ESC 0 50).1.modifiers = [(29, KeyState.none)]
    ∧ (InternalState.transition
        { modifiers := [(29, KeyState.locked)], timeout := 500,
          clear_all_with_escape := true,
          touchpad := { dragging := false, position := (-1, -1), buffer := [],
                        last_release := Option.none, fuzz := 300 } }
        KEY_ESC 0 50).2 ≠ [(KEY_ESC, 0), (29, 0)] := by
  refine ⟨by decide, by decide, by decide⟩

/-- **C4 amended.** When `clear_all_with_escape` is enabled, an ESC event
with *any* press value (0, 1 or 2) makes `InternalState.transition` set
every non-`None` modifier entry to `None` and return exactly one release
event `(k, 0)` per such entry, in iteration order; the escape event itself
is not forwarded.  (The source checks only the key code, not the press
value.) -/
theorem C4_escape_clear_all (s : InternalState) (pressed : Int) (t : Nat)
    (h : s.clear_all_with_escape = true) :
    (s.transition KEY_ESC pressed t).2
        = (s.modifiers.filter (fun p => !p.2.isNone)).map (fun p => (p.1, (0 : Int)))
    ∧ (s.transition KEY_ESC pressed t).1.modifiers
        = s.modifiers.map (fun p => (p.1, KeyState.none))
    ∧ (∀ e ∈ (s.transition KEY_ESC pressed t).2, e.2 = 0) := by
  rw [transition_esc s pressed t h]
  refine ⟨rfl, rfl, ?_⟩
  intro e he
  obtain ⟨q, hq, rfl⟩ := List.mem_map.mp he
  rfl

/-- Witness for the amended C4: an ESC autorepeat (value 2) over a table
with a locked LCTRL and a latched LSHIFT releases both and forwards
nothing else. -/
theorem C4_escape_clear_all_witness :
    (InternalState.transition
        { modifiers := [(29, KeyState.locked), (42, KeyState.latched 3)], timeout := 500,
          clear_all_with_escape := true,
          touchpad := { dragging := false, position := (-1, -1), buffer := [],
                        last_release := Option.none, fuzz := 300 } }
        KEY_ESC 2 50).2
      = (([(29, KeyState.locked), (42, KeyState.latched 3)] : List (Nat × KeyState)).filter
            (fun p => !p.2.isNone)).map (fun p => (p.1, (0 : Int)))
    ∧ (InternalState.transition
        { modifiers := [(29, KeyState.locked), (42, KeyState.latched 3)], timeout := 500,
          clear_all_with_escape := true,
          touchpad := { dragging := false, position := (-1, -1), buffer := [],
                        last_release := Option.none, fuzz := 300 } }
        KEY_ESC 2 50).1.modifiers
      = ([(29, KeyState.locked), (42, KeyState.latched 3)] : List (Nat × KeyState)).map
          (fun p => (p.1, KeyState.none))
    ∧ (∀ e ∈ (InternalState.transition
        { modifiers := [(29, KeyState.locked), (42, KeyState.latched 3)], timeout := 500,
          clear_all_with_escape := true,
          touchpad := { dragging := false, position := (-1, -1), buffer := [],
                        last_release := Option.none, fuzz := 300 } }
        KEY_ESC 2 50).2, e.2 = 0) :=
  C4_escape_clear_all _ 2 50 (by decide)

/-! ## C9 -/

/-- No recognized modifier name maps to `KEY_ESC`: a configured modifier
key can never be the escape key. -/
lemma modifier_name_to_key_code_ne_esc (s : String) (k : Nat)
    (h : modifier_name_to_key_code s = some k) : k ≠ KEY_ESC := by
  unfold modifier_name_to_key_code at h
  split at h <;> simp_all [KEY_ESC] <;> omega

/-- `KEY_ESC` is not among the default modifiers either. -/
lemma esc_not_default_modifier : KEY_ESC ∉ defaultModifiers := by decide

/-- **C9.** When `clear_all_with_escape` is enabled, no event with code
ESC ever appears in the output of `InternalState.transition` for an ESC
input of any value and any table state over the configured modifiers: the
clear-all branch runs for every value, sets every non-`None` entry to
`None`, emits their releases, and swallows the escape event itself.  The
hypothesis that ESC is not a table key holds of every configuration (see
`modifier_name_to_key_code_ne_esc` and `esc_not_default_modifier`). -/
theorem C9_esc_swallowed (s : InternalState) (v : Int) (t : Nat)
    (h1 : s.clear_all_with_escape = true)
    (h2 : ∀ p ∈ s.modifiers, p.1 ≠ KEY_ESC) :
    (∀ e ∈ (s.transition KEY_ESC v t).2, e.1 ≠ KEY_ESC)
    ∧ (s.transition KEY_ESC v t).1.modifiers
        = s.modifiers.map (fun p => (p.1, KeyState.none))
    ∧ (s.transition KEY_ESC v t).2
        = (s.modifiers.filter (fun p => !p.2.isNone)).map (fun p => (p.1, (0 : Int))) := by
  rw [transition_esc s v t h1]
  refine ⟨?_, rfl, rfl⟩
  intro e he
  obtain ⟨q, hq, rfl⟩ := List.mem_map.mp he
  exact h2 q (List.mem_of_mem_filter hq)

/-- Witness for C9: an ESC release (value 0) over a locked LCTRL emits
only `(29, 0)` — no ESC code in the output — and clears the table. -/
theorem C9_esc_swallowed_witness :
    (∀ e ∈ (InternalState.transition
        { modifiers := [(29, KeyState.locked)], timeout := 500,
          clear_all_with_escape := true,
          touchpad := { dragging := false, position := (-1, -1), buffer := [],
                        last_release := Option.none, fuzz := 300 } }
        KEY_ESC 0 7).2, e.1 ≠ KEY_ESC)
    ∧ (InternalState.transition
        { modifiers := [(29, KeyState.locked)], timeout := 500,
          clear_all_with_escape := true,
          touchpad := { dragging := false, position := (-1, -1), buffer := [],
                        last_release := Option.none, fuzz := 300 } }
        KEY_ESC 0 7).1.modifiers
      = ([(29, KeyState.locked)] : List (Nat × KeyState)).map (fun p => (p.1, KeyState.none))
    ∧ (InternalState.transition
        { modifiers := [(29, KeyState.locked)], timeout := 500,
          clear_all_with_escape := true,
          touchpad := { dragging := false, position := (-1, -1), buffer := [],
                        last_release := Option.none, fuzz := 300 } }
        KEY_ESC 0 7).2
      = (([(29, KeyState.locked)] : List (Nat × KeyState)).filter
            (fun p => !p.2.isNone)).map (fun p => (p.1, (0 : Int))) :=
  C9_esc_swallowed _ 0 7 (by decide) (by decide)

/-! ## C8 -/

/-- The starting state of end-to-end scenario 1: configured modifiers
`{LSHIFT}` (code 42), timeout 500 ms, every entry `None`, defaults
elsewhere. -/
def scenario1Start : InternalState :=
  { modifiers := [(42, KeyState.none)], timeout := 500,
    clear_all_with_escape := true,
    touchpad := { dragging := false, position := (-1, -1), buffer := [],
                  last_release := Option.none, fuzz := 300 } }

/-- The input of end-to-end scenario 1: LSHIFT press at 0 ms, LSHIFT
release at 10 ms, A (code 30) press at 50 ms, A release at 60 ms. -/
def scenario1Input : List (Nat × Int × Nat) :=
  [(42, 1, 0), (42, 0, 10), (30, 1, 50), (30, 0, 60)]

/-- **C8 counterexample.** The engine's concatenated output for scenario 1
is *not* the four events `LSHIFT+, A+, LSHIFT-, A-` claimed: the physical
LSHIFT release at 10 ms is replaced by a synthesized event whose value is
the latched pressed-state 1, so a second `(42, 1)` appears. -/
theorem C8_scenario1_counterexample :
    (runKeys scenario1Start scenario1Input).2 ≠ [(42, 1), (30, 1), (42, 0), (30, 0)]
    ∧ (runKeys scenario1Start scenario1Input).2
        = [(42, 1), (42, 1), (30, 1), (42, 0), (30, 0)] := by
  refine ⟨by decide, by decide⟩

/-- **C8 amended.** For scenario 1 the concatenated output is exactly
LSHIFT press, LSHIFT press again (synthesized for the physical release
while latched), A press, LSHIFT release, A release; and the final table
maps LSHIFT to `None`. -/
theorem C8_scenario1 :
    (runKeys scenario1Start scenario1Input).2
        = [(42, 1), (42, 1), (30, 1), (42, 0), (30, 0)]
    ∧ (runKeys scenario1Start scenario1Input).1.modifiers.lookup 42
        = some KeyState.none := by
  refine ⟨by decide, by decide⟩

/-! ## C5 -/

/-- A state with a staged touchpad buffer: LSHIFT release `(42, 0)` staged
at `last_release = 0`. -/
def stagedState : InternalState :=
  { modifiers := [(42, KeyState.none)], timeout := 500,
    clear_all_with_escape := true,
    touchpad := { dragging := false, position := (-1, -1), buffer := [(42, 0)],
                  last_release := some 0, fuzz := 300 } }

/-- **C5 counterexample.** At `now = 201` with debounce 200 the deferred
step emits the staged buffer and clears it, but `last_release` is *not*
cleared: it is still `some 0` afterwards, contradicting the claim that
both are cleared. -/
theorem C5_deferred_counterexample :
    (deferredStep stagedState 201 200).2 = [(42, 0)]
    ∧ (deferredStep stagedState 201 200).1.touchpad.buffer = []
    ∧ (deferredStep stagedState 201 200).1.touchpad.last_release = some 0
    ∧ (deferredStep stagedState 201 200).1.touchpad.last_release ≠ Option.none := by
  refine ⟨by decide, by decide, by decide, by decide⟩

/-- **C5 amended.** Whenever `last_release` is set to `t` and
`now - t` strictly exceeds the touchpad debounce, the deferred-release
step emits the staged buffer and clears the buffer in the same step, but
leaves `last_release` set (it is cleared only by a later touchpad press);
everything else is unchanged.  Otherwise it emits nothing and changes
nothing. -/
theorem C5_deferred_release (s : InternalState) (now tt : Nat) :
    ((∃ t, s.touchpad.last_release = some t ∧ t ≤ now ∧ tt < now - t) →
        (deferredStep s now tt).2 = s.touchpad.buffer
        ∧ (deferredStep s now tt).1.touchpad.buffer = []
        ∧ (deferredStep s now tt).1.touchpad.last_release = s.touchpad.last_release
        ∧ (deferredStep s now tt).1.modifiers = s.modifiers)
    ∧ (¬(∃ t, s.touchpad.last_release = some t ∧ t ≤ now ∧ tt < now - t) →
        (deferredStep s now tt).2 = [] ∧ (deferredStep s now tt).1 = s) := by
  constructor
  · rintro ⟨t, ht, hle, hgt⟩
    unfold deferredStep durationSince
    rw [ht]
    simp [hle, hgt]
    exact ht
  · intro hnot
    unfold deferredStep durationSince
    cases hlr : s.touchpad.last_release with
    | none => exact ⟨rfl, rfl⟩
    | some t =>
      by_cases hle : t ≤ now
      · have hng : ¬(tt < now - t) := fun hgt => hnot ⟨t, hlr, hle, hgt⟩
        simp [hle, hng]
      · simp [hle]

/-- Witness for the amended C5: both modes at concrete inputs — the firing
mode on `stagedState` at `now = 201`, debounce 200, and the idle mode at
`now = 100`. -/
theorem C5_deferred_release_witness :
    ((deferredStep stagedState 201 200).2 = stagedState.touchpad.buffer
      ∧ (deferredStep stagedState 201 200).1.touchpad.buffer = []
      ∧ (deferredStep stagedState 201 200).1.touchpad.last_release
          = stagedState.touchpad.last_release
      ∧ (deferredStep stagedState 201 200).1.modifiers = stagedState.modifiers)
    ∧ ((deferredStep stagedState 100 200).2 = []
      ∧ (deferredStep stagedState 100 200).1 = stagedState) :=
  ⟨(C5_deferred_release stagedState 201 200).1 ⟨0, by decide, by decide, by decide⟩,
   (C5_deferred_release stagedState 100 200).2 (by decide)⟩

/-! ## C7 -/

/-- **C7 counterexample.** A touchpad press (value 1) does *not* clear the
origin: starting from a tracker whose origin is `(5, 7)`, after
`respond_touch 1` the origin is still `(5, 7)`, not the unset sentinel
`(-1, -1)` the claim requires. -/
theorem C7_press_counterexample :
    ((InternalState.respond_touch
        { modifiers := [(42, KeyState.none)], timeout := 500,
          clear_all_with_escape := true,
          touchpad := { dragging := true, position := (5, 7), buffer := [],
                        last_release := some 3, fuzz := 300 } }
        1 99).touchpad.position = (5, 7))
    ∧ ((5, 7) : Int × Int) ≠ POSITION_EMPTY := by
  refine ⟨by decide, by decide⟩

/-- **C7 amended.** On a touchpad press event (value 1) the tracker sets
`dragging` to `false` and clears `last_release` for every prior state, but
it leaves the origin (`position`) unchanged — the origin is reset only
when a drag is detected by `respond_motion`.  The modifier table and the
staged buffer are also untouched. -/
theorem C7_press_resets (s : InternalState) (now : Nat) :
    (s.respond_touch 1 now).touchpad.dragging = false
    ∧ (s.respond_touch 1 now).touchpad.last_release = Option.none
    ∧ (s.respond_touch 1 now).touchpad.position = s.touchpad.position
    ∧ (s.respond_touch 1 now).touchpad.buffer = s.touchpad.buffer
    ∧ (s.respond_touch 1 now).modifiers = s.modifiers := by
  unfold InternalState.respond_touch
  simp [TOUCH_HELD, TOUCH_RELEASED]

/-! ## C6 -/

/-- A stimulus that is not a touchpad button press (value 1). -/
def notTouchPress : Ev → Bool
  | .touch v _ => v != 1
  | _ => true

lemma transition_touchpad_eq (s : InternalState) (k : Nat) (v : Int) (t : Nat) :
    (s.transition k v t).1.touchpad = s.touchpad := by
  unfold InternalState.transition
  split
  · rfl
  · split <;> rfl

lemma respond_motion_touchpad (s : InternalState) (a : Fin 2) (c : Int) :
    (s.respond_motion a c).touchpad.buffer = s.touchpad.buffer
    ∧ (s.respond_motion a c).touchpad.last_release = s.touchpad.last_release := by
  unfold InternalState.respond_motion
  by_cases h1 : s.touchpad.dragging
  · simp [h1]
  · by_cases h2 : (if a = 0 then s.touchpad.position.1 else s.touchpad.position.2)
        = COORDINATE_EMPTY
    · simp [h1, h2]
    · by_cases h3 : ((if a = 0 then s.touchpad.position.1 else s.touchpad.position.2)
          - c).natAbs > s.touchpad.fuzz
      · simp [h1, h2, h3]
      · simp [h1, h2, h3]

lemma deferredStep_touchpad (s : InternalState) (now tt : Nat) :
    (deferredStep s now tt).1.touchpad.last_release = s.touchpad.last_release
    ∧ ((deferredStep s now tt).1.touchpad.buffer = s.touchpad.buffer
        ∨ (deferredStep s now tt).1.touchpad.buffer = []) := by
  unfold deferredStep
  split
  · split
    · rename_i e _
      by_cases hgt : e > tt
      · simp [hgt]
      · simp [hgt]
    · exact ⟨rfl, Or.inl rfl⟩
  · exact ⟨rfl, Or.inl rfl⟩

/-- The buffer/last-release invariant is preserved by every loop stimulus
that is not a touchpad press. -/
lemma step_preserves_staged_inv (tt : Nat) (s : InternalState) (e : Ev)
    (he : notTouchPress e = true)
    (h : s.touchpad.buffer ≠ [] → s.touchpad.last_release.isSome)
    (hne : (step tt s e).touchpad.buffer ≠ []) :
    (step tt s e).touchpad.last_release.isSome := by
  cases e with
  | key c v ts =>
    rw [step, transition_touchpad_eq] at hne ⊢
    exact h hne
  | touch v now =>
    have hv : ¬(v = TOUCH_HELD) := by
      simpa [notTouchPress, TOUCH_HELD] using he
    by_cases hc : ¬s.touchpad.dragging ∧ v = TOUCH_RELEASED
    · simp [step, InternalState.respond_touch, hv, hc, TOUCH_HELD, TOUCH_RELEASED]
    · simp only [step, InternalState.respond_touch, if_neg hv, if_neg hc] at hne ⊢
      exact h hne
  | motion a c =>
    rw [step] at hne ⊢
    rw [(respond_motion_touchpad s a c).1] at hne
    rw [(respond_motion_touchpad s a c).2]
    exact h hne
  | deferred now =>
    obtain ⟨h1, h2⟩ := deferredStep_touchpad s now tt
    rw [step] at hne ⊢
    rw [h1]
    cases h2 with
    | inl hb =>
      rw [hb] at hne
      exact h hne
    | inr hb =>
      rw [hb] at hne
      exact absurd rfl hne

/-- **C6 counterexample.** The invariant fails on a reachable state: from
the all-`None` single-modifier start, press LSHIFT (latching it), release
the touchpad at 10 ms (staging the LSHIFT release and setting
`last_release`), then press the touchpad again at 20 ms — within the
debounce window, so the deferred step never fired.  The press clears
`last_release` but not the buffer, leaving a non-empty `pending_releases`
while `last_release` is unset. -/
theorem C6_staged_counterexample :
    (runTrace 200
        { modifiers := [(42, KeyState.none)], timeout := 500,
          clear_all_with_escape := true,
          touchpad := { dragging := false, position := (-1, -1), buffer := [],
                        last_release := Option.none, fuzz := 300 } }
        [Ev.key 42 1 0, Ev.touch 0 10, Ev.touch 1 20]).touchpad.buffer = [(42, 0)]
    ∧ (runTrace 200
        { modifiers := [(42, KeyState.none)], timeout := 500,
          clear_all_with_escape := true,
          touchpad := { dragging := false, position := (-1, -1), buffer := [],
                        last_release := Option.none, fuzz := 300 } }
        [Ev.key 42 1 0, Ev.touch 0 10, Ev.touch 1 20]).touchpad.last_release
      = Option.none := by
  refine ⟨by decide, by decide⟩

/-- **C6 amended.** The invariant "`pending_releases` is non-empty only
while `last_release` is set" holds of every state reachable by key events,
touchpad events and deferred-release steps that include no touchpad button
press: a press (value 1) clears `last_release` without clearing the
buffer, orphaning the staged events (which are, however, never emitted,
because the deferred step requires `last_release` to be set). -/
theorem C6_staged_invariant (tt : Nat) (s : InternalState) (trace : List Ev)
    (h0 : s.touchpad.buffer ≠ [] → s.touchpad.last_release.isSome)
    (hp : ∀ e ∈ trace, notTouchPress e = true)
    (hne : (runTrace tt s trace).touchpad.buffer ≠ []) :
    (runTrace tt s trace).touchpad.last_release.isSome := by
  induction trace generalizing s with
  | nil => exact h0 hne
  | cons e rest ih =>
    rw [runTrace, List.foldl_cons] at hne ⊢
    refine ih (step tt s e) ?_ (fun x hx => hp x (List.mem_cons_of_mem e hx)) hne
    exact step_preserves_staged_inv tt s e (hp e (List.mem_cons_self e rest)) h0

/-- Witness for the amended C6: a press-free trace that latches LSHIFT and
releases the touchpad leaves a non-empty buffer with `last_release` set. -/
theorem C6_staged_invariant_witness :
    (runTrace 200
        { modifiers := [(42, KeyState.none)], timeout := 500,
          clear_all_with_escape := true,
          touchpad := { dragging := false, position := (-1, -1), buffer := [],
                        last_release := Option.none, fuzz := 300 } }
        [Ev.key 42 1 0, Ev.touch 0 10]).touchpad.last_release.isSome :=
  C6_staged_invariant 200 _ [Ev.key 42 1 0, Ev.touch 0 10]
    (by decide) (by decide) (by decide)

/-! ## C10 -/

/-- **C10.** When touchpad coupling is enabled and no enumerated device
has a lowercased name containing "touchpad", the touchpad-opening step of
startup fails with `Error.NoKeyboardDevice` — the "no keyboard device
available" diagnostic — rather than any touchpad-specific error kind
(`pick_touchpad` reuses `NoKeyboardDevice`, and the error taxonomy has no
touchpad variant at all). -/
theorem C10_touchpad_autodetect_error (devices : List String)
    (h : ∀ d ∈ devices, strContains (to_lowercase d) "touchpad" = false) :
    setupTouchpad true devices = Except.error Error.NoKeyboardDevice
    ∧ Error.NoKeyboardDevice.message
        = "no keyboard device available to augment input keypresses of" := by
  refine ⟨?_, rfl⟩
  have hfind : devices.find? (fun name => strContains (to_lowercase name) "touchpad")
      = Option.none := by
    rw [List.find?_eq_none]
    intro x hx
    simp [h x hx]
  simp [setupTouchpad, pick_touchpad, hfind, Except.map]

/-- Witness for C10: an enumeration with a mouse and a keyboard but no
touchpad makes startup with touchpad coupling fail with
`NoKeyboardDevice`. -/
theorem C10_touchpad_autodetect_error_witness :
    setupTouchpad true ["Logitech Mouse", "AT Translated Keyboard"]
        = Except.error Error.NoKeyboardDevice
    ∧ Error.NoKeyboardDevice.message
        = "no keyboard device available to augment input keypresses of" :=
  C10_touchpad_autodetect_error ["Logitech Mouse", "AT Translated Keyboard"] (by decide)
